import Mathlib

/-
  Shallow embedding of the renderer/scene subsystem of the webgpu-project
  repository (Rust), covering src/texture.rs, src/scene.rs, src/model.rs,
  src/light.rs, src/renderer.rs, src/resources.rs and the resize path of
  src/lib.rs.

  Modelling conventions:
  - Rust usize and u32 values are Nat; the one place a cast or a
    subtraction can overflow is modelled explicitly.
  - f32 values that the verified code paths move around (transforms,
    sampler LOD clamps) are never subjected to arithmetic by that code,
    so they are carried by an exact integer carrier; a 4x4 matrix is a
    list of rows.
  - GPU handles (buffers, bind groups, pipelines, decoded pixel data)
    are device-allocated identifiers with no observable structure; they
    are carried as Nat identifiers.
  - A Rust function that can panic is embedded with an Option result
    (none = panic); a function returning anyhow::Result or
    Result<_, wgpu::SurfaceError> is embedded with Except.
  - Side effects on the GPU queue and render pass (buffer writes, bind
    group changes, draw calls, present) are recorded as an explicit
    trace of effects, in the order the code issues them.
-/

/-- Exact carrier for the f32 values moved around (never computed on) by the
verified code paths. -/
abbrev F32 := Int

/-- cgmath Matrix4 of f32, carried as a list of rows of exact values. -/
abbrev Mat4 := List (List F32)

/-- A 3-vector of exact scalar values. -/
abbrev Vec3 := F32 × F32 × F32

/-! ## texture.rs -/

/-- texture.rs: pub enum TextureType. -/
inductive TextureType where
  | Diffuse
  | Normal
  | Cubemap
deriving DecidableEq, Repr

/-- The wgpu texture formats used by the repository. -/
inductive TextureFormat where
  | Rgba8Unorm
  | Rgba8UnormSrgb
  | Depth32Float
deriving DecidableEq, Repr

/-- The wgpu texture view dimensions used by the repository. -/
inductive TextureViewDimension where
  | D2
  | Cube
deriving DecidableEq, Repr

/-- wgpu FilterMode. -/
inductive FilterMode where
  | Nearest
  | Linear
deriving DecidableEq, Repr

/-- wgpu AddressMode (only ClampToEdge is used). -/
inductive AddressMode where
  | ClampToEdge
deriving DecidableEq, Repr

/-- wgpu CompareFunction (only LessEqual is used on samplers). -/
inductive CompareFunction where
  | LessEqual
deriving DecidableEq, Repr

/-- The wgpu TextureUsages flags that appear in the repository. -/
structure TextureUsages where
  texture_binding : Bool
  copy_dst : Bool
  render_attachment : Bool
deriving DecidableEq, Repr

/-- wgpu SamplerDescriptor fields set by the repository. -/
structure SamplerRecord where
  address_mode_u : AddressMode
  address_mode_v : AddressMode
  address_mode_w : AddressMode
  mag_filter : FilterMode
  min_filter : FilterMode
  mipmap_filter : FilterMode
  compare : Option CompareFunction
  lod_min_clamp : F32
  lod_max_clamp : F32
deriving DecidableEq, Repr

/-- A decoded image: its dimensions plus an identifier for its rgba pixel
data. -/
structure ImageData where
  width : Nat
  height : Nat
  pixels : Nat
deriving DecidableEq, Repr

/-- One queue.write_texture call as issued by Texture::from_images. -/
structure WriteTextureCall where
  mip_level : Nat
  origin_x : Nat
  origin_y : Nat
  origin_z : Nat
  data : Nat
  bytes_per_row : Nat
  rows_per_image : Nat
  extent_width : Nat
  extent_height : Nat
  extent_layers : Nat
deriving DecidableEq, Repr

/-- The observable result of constructing a Texture: the descriptor fields
passed to create_texture, the uploads issued, the view dimension, and the
sampler. -/
structure TextureRecord where
  width : Nat
  height : Nat
  layers : Nat
  mip_level_count : Nat
  sample_count : Nat
  format : TextureFormat
  usage : TextureUsages
  writes : List WriteTextureCall
  view_dimension : TextureViewDimension
  sampler : SamplerRecord
deriving DecidableEq, Repr

/-- texture.rs, Texture::from_images. The function indexes imgs[0] before
anything else, so an empty input panics (none). No operation inside the
function returns Err, so every nonempty input yields Ok (some). Sampler
fields left to ..Default::default() take the wgpu defaults (no compare,
LOD clamp 0 to 32). -/
def Texture.from_images (imgs : List ImageData) (ty : TextureType) :
    Option TextureRecord :=
  match imgs with
  | [] => none
  | img0 :: _ =>
    some {
      width := img0.width
      height := img0.height
      layers := match ty with
        | TextureType.Cubemap => 6
        | _ => 1
      mip_level_count := 1
      sample_count := 1
      format := match ty with
        | TextureType.Normal => TextureFormat.Rgba8Unorm
        | _ => TextureFormat.Rgba8UnormSrgb
      usage := { texture_binding := true, copy_dst := true, render_attachment := true }
      writes := imgs.enum.map fun p =>
        { mip_level := 0
          origin_x := 0
          origin_y := 0
          origin_z := p.1
          data := p.2.pixels
          bytes_per_row := 4 * img0.width
          rows_per_image := img0.height
          extent_width := img0.width
          extent_height := img0.height
          extent_layers := 1 }
      view_dimension := match ty with
        | TextureType.Cubemap => TextureViewDimension.Cube
        | _ => TextureViewDimension.D2
      sampler := {
        address_mode_u := AddressMode.ClampToEdge
        address_mode_v := AddressMode.ClampToEdge
        address_mode_w := AddressMode.ClampToEdge
        mag_filter := FilterMode.Linear
        min_filter := FilterMode.Nearest
        mipmap_filter := FilterMode.Nearest
        compare := none
        lod_min_clamp := 0
        lod_max_clamp := 32 } }

/-- texture.rs, Texture::from_bytes: decode the byte slice (an external
image-crate call, passed in as a parameter; a decode failure is the Err
propagated by the question-mark operator) and defer to from_images with a
single-image list. Decode failure and panic are both non-success here. -/
def Texture.from_bytes (decode : List Nat → Option ImageData)
    (bytes : List Nat) (label : String) (ty : TextureType) :
    Option TextureRecord := do
  let img ← decode bytes
  Texture.from_images [img] ty

/-- renderer.rs / lib.rs: the surface configuration fields the resize and
depth-texture code reads and writes. -/
structure SurfaceConfig where
  width : Nat
  height : Nat
deriving DecidableEq, Repr

/-- texture.rs, Texture::create_depth_texture: a depth texture sized to the
surface configuration clamped below by 1, with its comparison sampler. -/
def Texture.create_depth_texture (config : SurfaceConfig) (label : String) :
    TextureRecord :=
  { width := max config.width 1
    height := max config.height 1
    layers := 1
    mip_level_count := 1
    sample_count := 1
    format := TextureFormat.Depth32Float
    usage := { texture_binding := true, copy_dst := false, render_attachment := true }
    writes := []
    view_dimension := TextureViewDimension.D2
    sampler := {
      address_mode_u := AddressMode.ClampToEdge
      address_mode_v := AddressMode.ClampToEdge
      address_mode_w := AddressMode.ClampToEdge
      mag_filter := FilterMode.Linear
      min_filter := FilterMode.Linear
      mipmap_filter := FilterMode.Nearest
      compare := some CompareFunction.LessEqual
      lod_min_clamp := 0
      lod_max_clamp := 100 } }

/-! ## model.rs -/

/-- model.rs, pub struct Mesh: GPU buffer handles, the index count
(num_elements, a u32) and the material index (usize). -/
structure Mesh where
  name : String
  vertex_buffer : Nat
  index_buffer : Nat
  num_elements : Nat
  material : Nat
deriving DecidableEq, Repr

/-- model.rs, pub struct Material: name, the two texture handles, and the
bind group handle built from them. -/
structure Material where
  name : String
  diffuse_texture : Nat
  normal_texture : Nat
  bind_group : Nat
deriving DecidableEq, Repr

/-- model.rs, pub struct Model: an ordered collection of meshes. -/
structure Model where
  meshes : List Mesh
deriving DecidableEq, Repr

/-- model.rs, pub struct ModelInstance: model index plus world transform. -/
structure ModelInstance where
  model_index : Nat
  transform : Mat4
deriving DecidableEq, Repr

/-- Fallback material used only to express list lookups with List.getD in
theorem statements; never produced by the embedded code. -/
def noMaterial : Material := { name := "", diffuse_texture := 0, normal_texture := 0, bind_group := 0 }

/-- Fallback model used only to express list lookups with List.getD in
theorem statements; never produced by the embedded code. -/
def noModel : Model := { meshes := [] }

/-! ## light.rs -/

/-- light.rs, pub struct LightUniform with its explicit padding fields. -/
structure LightUniform where
  position : Vec3
  padding : Nat
  color : Vec3
  padding2 : Nat
deriving DecidableEq, Repr

/-- light.rs, LightUniform::new. -/
def LightUniform.new : LightUniform :=
  { position := (2, 1, 2), padding := 0, color := (1, 1, 1), padding2 := 0 }

/-! ## camera -/

/-- Modelled from the spec: the repository file camera.rs is not under src
(only its callers are). Section 3 of the spec gives the Camera data model:
eye, target, up vectors and aspect, fovy, znear, zfar scalars. The view
projection math itself stays an external function parameter where needed. -/
structure Camera where
  eye : Vec3
  target : Vec3
  up : Vec3
  aspect : F32
  fovy : F32
  znear : F32
  zfar : F32
deriving DecidableEq, Repr

/-! ## scene.rs -/

/-- scene.rs, pub struct Scene: flat registries of materials, models and
object instances, plus one light and one camera. -/
structure Scene where
  materials : List Material
  models : List Model
  objects : List ModelInstance
  light : LightUniform
  camera : Camera
deriving DecidableEq, Repr

/-- scene.rs, Scene::new. -/
def Scene.new (light : LightUniform) (camera : Camera) : Scene :=
  { materials := [], models := [], objects := [], light := light, camera := camera }

/-- Rust usize subtraction under the checked semantics the repository is
developed and tested with: underflow is a panic, modelled as none. -/
def usizeSub (a b : Nat) : Option Nat :=
  if a < b then none else some (a - b)

/-- scene.rs, Scene::add_model: push the model, then return
self.materials.len() - 1. The push happens before the subtraction, so the
returned state has the model appended even when the subtraction panics. -/
def Scene.add_model (s : Scene) (m : Model) : Scene × Option Nat :=
  ({ s with models := s.models ++ [m] }, usizeSub s.materials.length 1)

/-- scene.rs, Scene::add_material: push the material, then return
self.materials.len() - 1, its index; after the push the length is at least
one, so the subtraction cannot underflow. -/
def Scene.add_material (s : Scene) (m : Material) : Scene × Nat :=
  ({ s with materials := s.materials ++ [m] }, (s.materials.length + 1) - 1)

/-- Helper for scene.rs Scene::get_material: scan with a running index and
return the first index whose material name equals the query. -/
def findMaterialIdx (name : String) : Nat → List Material → Option Nat
  | _, [] => none
  | i, m :: rest => if m.name = name then some i else findMaterialIdx name (i + 1) rest

/-- scene.rs, Scene::get_material: enumerate the materials in insertion
order and return the index of the first whose stored name equals the
query, or None. -/
def Scene.get_material (s : Scene) (name : String) : Option Nat :=
  findMaterialIdx name 0 s.materials

/-- scene.rs, Scene::add_object: push the instance. -/
def Scene.add_object (s : Scene) (obj : ModelInstance) : Scene :=
  { s with objects := s.objects ++ [obj] }

/-! ## renderer.rs -/

/-- The queue and render pass effects issued while rendering, in program
order. Buffer writes carry the value written; draw_indexed carries its
index range, base vertex and instance range. -/
inductive GpuEffect where
  | writeCameraBuffer (viewProj : Mat4)
  | requestRedraw
  | acquireSurfaceTexture
  | beginRenderPass
  | setPipeline (pipeline : Nat)
  | setBindGroup (index : Nat) (group : Nat)
  | setVertexBuffer (slot : Nat) (buffer : Nat)
  | setIndexBuffer (buffer : Nat)
  | writeModelBuffer (transform : Mat4)
  | drawIndexed (indexStart indexEnd : Nat) (baseVertex : Int) (instStart instEnd : Nat)
  | submit
  | present
deriving DecidableEq, Repr

/-- model.rs, DrawModel::draw_mesh_instanced for wgpu::RenderPass: set the
vertex and index buffers, bind the material bind group at group 0, and
issue one indexed draw over the full index range of the mesh. -/
def drawMeshInstanced (mesh : Mesh) (material : Material)
    (instStart instEnd : Nat) : List GpuEffect :=
  [ GpuEffect.setVertexBuffer 0 mesh.vertex_buffer,
    GpuEffect.setIndexBuffer mesh.index_buffer,
    GpuEffect.setBindGroup 0 material.bind_group,
    GpuEffect.drawIndexed 0 mesh.num_elements 0 instStart instEnd ]

/-- model.rs, DrawModel::draw_mesh: draw_mesh_instanced with the instance
range 0..1. -/
def drawMesh (mesh : Mesh) (material : Material) : List GpuEffect :=
  drawMeshInstanced mesh material 0 1

/-- The Rust vector index operator: some element when in bounds, none (a
panic) otherwise. -/
def listIdx {α : Type} : List α → Nat → Option α
  | [], _ => none
  | a :: _, 0 => some a
  | _ :: t, i + 1 => listIdx t i

/-- renderer.rs, the inner loop of Renderer::draw_scene: for each mesh of
the model, index the materials vector (a panic when out of bounds) and
draw the mesh with its material. -/
def drawMeshes (materials : List Material) : List Mesh → Option (List GpuEffect)
  | [] => some []
  | mesh :: rest => do
    let material ← listIdx materials mesh.material
    let tail ← drawMeshes materials rest
    some (drawMesh mesh material ++ tail)

/-- renderer.rs, the outer loop of Renderer::draw_scene: for each scene
object in vector order, write its transform to the shared model uniform
buffer, index the models vector (a panic when out of bounds), and draw
each mesh of that model in vector order. -/
def drawSceneObjects (models : List Model) (materials : List Material) :
    List ModelInstance → Option (List GpuEffect)
  | [] => some []
  | obj :: rest => do
    let model ← listIdx models obj.model_index
    let meshEffects ← drawMeshes materials model.meshes
    let tail ← drawSceneObjects models materials rest
    some (GpuEffect.writeModelBuffer obj.transform :: meshEffects ++ tail)

/-- renderer.rs, Renderer::draw_scene over a scene. -/
def Renderer.draw_scene (scene : Scene) : Option (List GpuEffect) :=
  drawSceneObjects scene.models scene.materials scene.objects

/-- wgpu::SurfaceError as matched by the repository. -/
inductive SurfaceError where
  | Lost
  | Outdated
  | Timeout
  | OutOfMemory
deriving DecidableEq, Repr

/-- renderer.rs, pub struct Renderer: the fields the render and resize
paths read or write. Handle fields identify the GPU objects created at
construction time. -/
structure Renderer where
  is_surface_configured : Bool
  config : SurfaceConfig
  depth_texture : TextureRecord
  render_pipeline : Nat
  camera_model_bind_group : Nat
  simple_material_bind_group : Nat
  light_bind_group : Nat
deriving DecidableEq, Repr

/-- renderer.rs, Renderer::update_size: unconditionally store the new
dimensions, reconfigure the surface, mark it configured, and rebuild the
depth texture. The surface configure call is returned alongside the new
state as the reconfiguration witness. -/
def Renderer.update_size (r : Renderer) (width height : Nat) :
    Renderer × List SurfaceConfig :=
  let config := { width := width, height := height : SurfaceConfig }
  ({ r with
      config := config
      is_surface_configured := true
      depth_texture := Texture.create_depth_texture config "depth_texture" },
   [config])

/-- renderer.rs, Renderer::render. The camera view projection math lives in
the external camera module and is passed in as buildVP; the outcome of
surface.get_current_texture is the environment parameter acquire. The
returned value is none on a panic inside draw_scene, and otherwise the
Result of the Rust function together with the trace of effects issued, in
order: the camera buffer upload and the redraw request always happen
first; an unconfigured surface then returns Ok having touched nothing
else. The two effects every call issues first are named renderHead. -/
def renderHead (buildVP : Camera → Mat4) (camera : Camera) : List GpuEffect :=
  [GpuEffect.writeCameraBuffer (buildVP camera), GpuEffect.requestRedraw]

/-- renderer.rs, Renderer::render; see the comment on renderHead. -/
def Renderer.render (r : Renderer) (buildVP : Camera → Mat4)
    (acquire : Except SurfaceError Nat) (camera : Camera) (scene : Scene) :
    Option (Except SurfaceError Unit × List GpuEffect) :=
  let head := renderHead buildVP camera
  if r.is_surface_configured = false then
    some (Except.ok (), head)
  else
    match acquire with
    | Except.error e => some (Except.error e, head ++ [GpuEffect.acquireSurfaceTexture])
    | Except.ok _ =>
      match Renderer.draw_scene scene with
      | none => none
      | some sceneEffects =>
        some (Except.ok (),
          head ++
          [ GpuEffect.acquireSurfaceTexture,
            GpuEffect.beginRenderPass,
            GpuEffect.setPipeline r.render_pipeline,
            GpuEffect.setBindGroup 1 r.camera_model_bind_group,
            GpuEffect.setBindGroup 2 r.simple_material_bind_group,
            GpuEffect.setBindGroup 3 r.light_bind_group ] ++
          sceneEffects ++
          [GpuEffect.submit, GpuEffect.present])

/-! ## lib.rs resize path -/

/-- lib.rs, pub struct State: the fields State::resize reads or writes.
The camera aspect is the exact pair of operands of the width by height
division performed on resize. -/
structure AppState where
  config : SurfaceConfig
  is_surface_configured : Bool
  camera_aspect : Nat × Nat
  depth_texture : TextureRecord
deriving DecidableEq, Repr

/-- lib.rs, State::resize: only when both dimensions are positive, store
them, reconfigure the surface (the returned list records the configure
call), mark the surface configured, update the camera aspect, and rebuild
the depth texture; otherwise do nothing. -/
def State.resize (s : AppState) (width height : Nat) :
    AppState × List SurfaceConfig :=
  if 0 < width ∧ 0 < height then
    let config := { width := width, height := height : SurfaceConfig }
    ({ config := config
       is_surface_configured := true
       camera_aspect := (width, height)
       depth_texture := Texture.create_depth_texture config "depth_texture" },
     [config])
  else
    (s, [])

/-! ## resources.rs -/

/-- tobj::Mesh fields read by load_model. material_id is None when the
mesh carries no resolved material reference. -/
structure TobjMesh where
  positions : List F32
  texcoords : List F32
  normals : List F32
  indices : List Nat
  material_id : Option Nat
deriving DecidableEq, Repr

/-- tobj::Model as consumed by load_model. -/
structure TobjModel where
  mesh : TobjMesh
deriving DecidableEq, Repr

/-- tobj::Material fields read by load_model. -/
structure ObjMaterial where
  name : String
  diffuse_texture : String
  normal_texture : String
deriving DecidableEq, Repr

/-- The value load_model builds: the meshes and materials of the loaded
model, as constructed in src/resources.rs. -/
structure LoadedModel where
  meshes : List Mesh
  materials : List Material
deriving DecidableEq, Repr

/-- The material loop of resources.rs load_model: for each obj material,
load its diffuse and normal textures (each load propagates failure via the
question-mark operator) and push a Material whose bind group is built from
the two texture handles (the device-allocated handle is identified by the
pair of textures it binds). -/
def loadMaterials (loadTex : String → TextureType → Except String Nat) :
    List ObjMaterial → Except String (List Material)
  | [] => Except.ok []
  | m :: rest => do
    let d ← loadTex m.diffuse_texture TextureType.Diffuse
    let n ← loadTex m.normal_texture TextureType.Normal
    let tail ← loadMaterials loadTex rest
    Except.ok ({ name := m.name, diffuse_texture := d, normal_texture := n,
                 bind_group := Nat.pair d n } :: tail)

/-- The mesh construction of resources.rs load_model: mesh name is the
filename, num_elements is the index count cast to u32, and the material
index is material_id.unwrap_or(0). Vertex and index buffer handles are
device allocations identified by the position of the mesh in the file. -/
def meshOfTobj (filename : String) (idx : Nat) (m : TobjModel) : Mesh :=
  { name := filename
    vertex_buffer := 2 * idx
    index_buffer := 2 * idx + 1
    num_elements := m.mesh.indices.length % 2 ^ 32
    material := m.mesh.material_id.getD 0 }

/-- resources.rs, load_model. The obj parse (tobj::load_obj_buf_async) and
the texture loads are external suspending calls; their outcomes are the
parsed parameter (obj text fetch or parse failure, and inside it the mtl
load outcome) and the loadTex parameter. Both failure sources propagate
via the question-mark operator; material loading runs before mesh
construction, and the function returns the fully built model. No scene is
read or mutated here. -/
def load_model
    (parsed : Except String (List TobjModel × Except String (List ObjMaterial)))
    (loadTex : String → TextureType → Except String Nat)
    (filename : String) : Except String LoadedModel :=
  match parsed with
  | Except.error e => Except.error e
  | Except.ok (models, objMaterials) =>
    match objMaterials with
    | Except.error e => Except.error e
    | Except.ok mats =>
      match loadMaterials loadTex mats with
      | Except.error e => Except.error e
      | Except.ok materials =>
        Except.ok { meshes := models.enum.map fun p => meshOfTobj filename p.1 p.2
                    materials := materials }

/-! ## Derived notions used by theorem statements -/

/-- The closed form of the draw_scene trace when every index is in bounds:
outer loop over scene objects in vector order, a transform upload first,
then the draws of the meshes of that model of the object in vector order. -/
def sceneTrace (scene : Scene) : List GpuEffect :=
  scene.objects.flatMap fun obj =>
    GpuEffect.writeModelBuffer obj.transform ::
      ((scene.models.getD obj.model_index noModel).meshes.flatMap fun mesh =>
        drawMesh mesh (scene.materials.getD mesh.material noMaterial))

/-- Recognizer for indexed draw calls in a trace. -/
def isDrawCall : GpuEffect → Bool
  | GpuEffect.drawIndexed _ _ _ _ _ => true
  | _ => false

/-- Recognizer for model transform uploads in a trace. -/
def isTransformUpload : GpuEffect → Bool
  | GpuEffect.writeModelBuffer _ => true
  | _ => false

/-- Total number of meshes drawn by one frame: for each object, the mesh
count of its model. -/
def meshCount (scene : Scene) : Nat :=
  (scene.objects.map fun obj =>
    (scene.models.getD obj.model_index noModel).meshes.length).sum

/-- Every object of the scene references a model in bounds, and every mesh
of that model references a material in bounds. -/
def SceneInBounds (scene : Scene) : Prop :=
  ∀ obj ∈ scene.objects,
    obj.model_index < scene.models.length ∧
    ∀ mesh ∈ (scene.models.getD obj.model_index noModel).meshes,
      mesh.material < scene.materials.length

instance (scene : Scene) : Decidable (SceneInBounds scene) := by
  unfold SceneInBounds
  infer_instance

/-! ## Concrete inputs for witnesses and counterexamples -/

/-- A concrete camera. -/
def demoCamera : Camera :=
  { eye := (0, 1, 2), target := (0, 0, 0), up := (0, 1, 0),
    aspect := 1, fovy := 45, znear := 1, zfar := 100 }

/-- A concrete single-mesh model. -/
def demoModel : Model :=
  { meshes := [{ name := "mesh0", vertex_buffer := 3, index_buffer := 4,
                 num_elements := 9, material := 0 }] }

/-- A concrete material named mat0. -/
def demoMaterial : Material :=
  { name := "mat0", diffuse_texture := 1, normal_texture := 2, bind_group := 7 }

/-- A concrete scene with one material, one single-mesh model, and two
instances of that model. -/
def demoScene : Scene :=
  { materials := [demoMaterial]
    models := [demoModel]
    objects := [ { model_index := 0, transform := [[1]] },
                 { model_index := 0, transform := [[2]] } ]
    light := LightUniform.new
    camera := demoCamera }

/-- A concrete scene with no materials, models or objects. -/
def emptyScene : Scene := Scene.new LightUniform.new demoCamera

/-- A concrete scene holding two materials that share the name X. -/
def twoXScene : Scene :=
  { materials := [ { name := "X", diffuse_texture := 1, normal_texture := 2, bind_group := 3 },
                   { name := "X", diffuse_texture := 4, normal_texture := 5, bind_group := 6 } ]
    models := []
    objects := []
    light := LightUniform.new
    camera := demoCamera }

/-- A concrete 16 by 16 image. -/
def demoImage : ImageData := { width := 16, height := 16, pixels := 11 }

/-- A concrete configured renderer. -/
def demoRenderer : Renderer :=
  { is_surface_configured := false
    config := { width := 800, height := 600 }
    depth_texture := Texture.create_depth_texture { width := 800, height := 600 } "depth_texture"
    render_pipeline := 20
    camera_model_bind_group := 21
    simple_material_bind_group := 22
    light_bind_group := 23 }

/-- A concrete view projection function standing in for the external
camera math. -/
def demoBuildVP : Camera → Mat4 := fun _ => [[5]]

/-- A concrete app state with a configured 800 by 600 surface. -/
def demoAppState : AppState :=
  { config := { width := 800, height := 600 }
    is_surface_configured := true
    camera_aspect := (800, 600)
    depth_texture := Texture.create_depth_texture { width := 800, height := 600 } "depth_texture" }

/-- A concrete obj model whose mesh has no resolved material reference. -/
def demoTobjModel : TobjModel :=
  { mesh := { positions := [0, 0, 0, 1, 0, 0, 0, 1, 0]
              texcoords := [0, 0, 1, 0, 0, 1]
              normals := [0, 0, 1, 0, 0, 1, 0, 0, 1]
              indices := [0, 1, 2]
              material_id := none } }

/-- A concrete texture loader that always succeeds. -/
def demoLoadTex : String → TextureType → Except String Nat := fun _ _ => Except.ok 0

/-- The model load_model builds from demoTobjModel with no materials. -/
def demoLoadedModel : LoadedModel :=
  { meshes := [meshOfTobj "dragon.obj" 0 demoTobjModel], materials := [] }

/-! ## Helper lemmas -/

theorem listIdx_eq_some_getD {α : Type} (d : α) :
    ∀ (l : List α) (i : Nat), i < l.length → listIdx l i = some (l.getD i d) := by
  intro l
  induction l with
  | nil => intro i h; simp at h
  | cons a t ih =>
    intro i h
    cases i with
    | zero => simp [listIdx]
    | succ j =>
      have hj : j < t.length := by simpa using h
      simpa [listIdx, List.getD_cons_succ] using ih j hj

theorem countP_flatMap {α β : Type} (p : β → Bool) (f : α → List β) :
    ∀ l : List α, (l.flatMap f).countP p = (l.map fun a => (f a).countP p).sum := by
  intro l
  induction l with
  | nil => simp
  | cons a t ih => simp [List.flatMap_cons, List.countP_append, ih]

theorem sum_map_eq_length {α : Type} (f : α → Nat) :
    ∀ l : List α, (∀ a ∈ l, f a = 1) → (l.map f).sum = l.length := by
  intro l
  induction l with
  | nil => intro _; simp
  | cons a t ih =>
    intro h
    have ha := h a (by simp)
    have ht := ih fun b hb => h b (by simp [hb])
    simp [ha, ht]
    omega

theorem enum_map_fst_comp {α : Type} (l : List α) :
    (l.enum.map fun p => p.1) = List.range l.length :=
  List.enum_map_fst l

theorem enum_map_snd_comp {α β : Type} (g : α → β) (l : List α) :
    (l.enum.map fun p => g p.2) = l.map g := by
  conv_rhs => rw [← List.enum_map_snd l]
  rw [List.map_map]
  rfl

/-! ## Claim theorems -/

/-- C2: with an unconfigured surface, render uploads the freshly recomputed
view projection matrix to the camera uniform buffer, requests the next
redraw from the window, and returns success; the issued trace contains no
surface acquire, no present, and no draw call. -/
theorem claim_C2_unconfigured_render (r : Renderer) (buildVP : Camera → Mat4)
    (acquire : Except SurfaceError Nat) (camera : Camera) (scene : Scene)
    (h : r.is_surface_configured = false) :
    Renderer.render r buildVP acquire camera scene
      = some (Except.ok (), renderHead buildVP camera)
    ∧ renderHead buildVP camera
      = [GpuEffect.writeCameraBuffer (buildVP camera), GpuEffect.requestRedraw]
    ∧ GpuEffect.acquireSurfaceTexture ∉ renderHead buildVP camera
    ∧ GpuEffect.present ∉ renderHead buildVP camera
    ∧ (renderHead buildVP camera).countP isDrawCall = 0 := by
  refine ⟨?_, rfl, ?_, ?_, ?_⟩
  · simp [Renderer.render, h]
  · simp [renderHead]
  · simp [renderHead]
  · simp [renderHead, List.countP_cons, isDrawCall]

/-- C2 witness: the concrete unconfigured renderer renders to success with
only the camera upload and the redraw request. -/
theorem claim_C2_witness :
    Renderer.render demoRenderer demoBuildVP (Except.ok 0) demoCamera demoScene
      = some (Except.ok (), renderHead demoBuildVP demoCamera) :=
  (claim_C2_unconfigured_render demoRenderer demoBuildVP (Except.ok 0) demoCamera
    demoScene rfl).1

/-- C3: a resize request with a zero dimension is rejected by State::resize:
the state is unchanged, no surface configure call is issued, and the stored
surface dimensions stay at least one by one. -/
theorem claim_C3_zero_resize_rejected (s : AppState) (w h : Nat)
    (hzero : w = 0 ∨ h = 0) (hmin : 1 ≤ s.config.width ∧ 1 ≤ s.config.height) :
    (State.resize s w h).1 = s ∧ (State.resize s w h).2 = []
    ∧ 1 ≤ (State.resize s w h).1.config.width
    ∧ 1 ≤ (State.resize s w h).1.config.height := by
  have hc : ¬ (0 < w ∧ 0 < h) := by omega
  rw [State.resize, if_neg hc]
  exact ⟨rfl, rfl, hmin.1, hmin.2⟩

/-- C3 witness: resizing the concrete 800 by 600 state to width zero is
rejected with no configure call. -/
theorem claim_C3_witness :
    (State.resize demoAppState 0 600).1 = demoAppState
    ∧ (State.resize demoAppState 0 600).2 = [] :=
  ⟨(claim_C3_zero_resize_rejected demoAppState 0 600 (Or.inl rfl) (by decide)).1,
   (claim_C3_zero_resize_rejected demoAppState 0 600 (Or.inl rfl) (by decide)).2.1⟩

/-- C4: add_model appends the model to the models vector but computes its
return value from the materials vector: with at least one material it
returns materials.length - 1, and with an empty materials vector the
subtraction underflows and panics instead of returning an index. -/
theorem claim_C4_add_model_return (s : Scene) (m : Model) :
    (Scene.add_model s m).1.models = s.models ++ [m]
    ∧ (s.materials.length = 0 → (Scene.add_model s m).2 = none)
    ∧ (0 < s.materials.length →
        (Scene.add_model s m).2 = some (s.materials.length - 1)) := by
  refine ⟨rfl, ?_, ?_⟩
  · intro h; simp [Scene.add_model, usizeSub, h]
  · intro h
    have hlt : ¬ s.materials.length < 1 := by omega
    simp [Scene.add_model, usizeSub, hlt]

/-- C4 witness: on the concrete scene with no materials, add_model appends
the model and the return value computation panics. -/
theorem claim_C4_witness :
    (Scene.add_model emptyScene demoModel).1.models = emptyScene.models ++ [demoModel]
    ∧ (Scene.add_model emptyScene demoModel).2 = none :=
  ⟨(claim_C4_add_model_return emptyScene demoModel).1,
   (claim_C4_add_model_return emptyScene demoModel).2.1 rfl⟩

/-- C9: create_depth_texture builds a single layer, single mip, 32 bit
float depth texture of dimensions clamped below by one, usable as render
attachment and sampled texture, with a linear min filter sampler comparing
less or equal and LOD range 0 to 100. -/
theorem claim_C9_depth_texture (w h : Nat) (label : String) :
    (Texture.create_depth_texture { width := w, height := h } label).layers = 1
    ∧ (Texture.create_depth_texture { width := w, height := h } label).mip_level_count = 1
    ∧ (Texture.create_depth_texture { width := w, height := h } label).sample_count = 1
    ∧ (Texture.create_depth_texture { width := w, height := h } label).format
        = TextureFormat.Depth32Float
    ∧ (Texture.create_depth_texture { width := w, height := h } label).width = max w 1
    ∧ (Texture.create_depth_texture { width := w, height := h } label).height = max h 1
    ∧ 1 ≤ (Texture.create_depth_texture { width := w, height := h } label).width
    ∧ 1 ≤ (Texture.create_depth_texture { width := w, height := h } label).height
    ∧ (Texture.create_depth_texture { width := w, height := h } label).usage.render_attachment = true
    ∧ (Texture.create_depth_texture { width := w, height := h } label).usage.texture_binding = true
    ∧ (Texture.create_depth_texture { width := w, height := h } label).sampler.min_filter
        = FilterMode.Linear
    ∧ (Texture.create_depth_texture { width := w, height := h } label).sampler.compare
        = some CompareFunction.LessEqual
    ∧ (Texture.create_depth_texture { width := w, height := h } label).sampler.lod_min_clamp = 0
    ∧ (Texture.create_depth_texture { width := w, height := h } label).sampler.lod_max_clamp = 100 :=
  ⟨rfl, rfl, rfl, rfl, rfl, rfl, le_max_right w 1, le_max_right h 1,
   rfl, rfl, rfl, rfl, rfl, rfl⟩

/-- C10: each scene mutator appends exactly one element to its own vector
and leaves the other two vectors, the light and the camera untouched. -/
theorem claim_C10_append_only (s : Scene) (mo : Model) (ma : Material)
    (ob : ModelInstance) :
    ((Scene.add_model s mo).1.models = s.models ++ [mo]
      ∧ (Scene.add_model s mo).1.materials = s.materials
      ∧ (Scene.add_model s mo).1.objects = s.objects
      ∧ (Scene.add_model s mo).1.light = s.light
      ∧ (Scene.add_model s mo).1.camera = s.camera)
    ∧ ((Scene.add_material s ma).1.materials = s.materials ++ [ma]
      ∧ (Scene.add_material s ma).1.models = s.models
      ∧ (Scene.add_material s ma).1.objects = s.objects
      ∧ (Scene.add_material s ma).1.light = s.light
      ∧ (Scene.add_material s ma).1.camera = s.camera)
    ∧ ((Scene.add_object s ob).objects = s.objects ++ [ob]
      ∧ (Scene.add_object s ob).materials = s.materials
      ∧ (Scene.add_object s ob).models = s.models
      ∧ (Scene.add_object s ob).light = s.light
      ∧ (Scene.add_object s ob).camera = s.camera) :=
  ⟨⟨rfl, rfl, rfl, rfl, rfl⟩, ⟨rfl, rfl, rfl, rfl, rfl⟩, ⟨rfl, rfl, rfl, rfl, rfl⟩⟩

theorem findMaterialIdx_none_iff (X : String) :
    ∀ (l : List Material) (k : Nat),
      findMaterialIdx X k l = none ↔ ∀ m ∈ l, m.name ≠ X := by
  intro l
  induction l with
  | nil => intro k; simp [findMaterialIdx]
  | cons a t ih =>
    intro k
    by_cases ha : a.name = X
    · simp [findMaterialIdx, ha]
    · simp [findMaterialIdx, ha, ih (k + 1)]

theorem findMaterialIdx_some_spec (X : String) :
    ∀ (l : List Material) (k i : Nat), findMaterialIdx X k l = some i →
      ∃ d, i = k + d ∧ d < l.length ∧ (l.getD d noMaterial).name = X
        ∧ ∀ j, j < d → (l.getD j noMaterial).name ≠ X := by
  intro l
  induction l with
  | nil => intro k i h; simp [findMaterialIdx] at h
  | cons a t ih =>
    intro k i h
    by_cases ha : a.name = X
    · refine ⟨0, ?_, by simp, by simpa using ha, by omega⟩
      simp [findMaterialIdx, ha] at h
      omega
    · rw [findMaterialIdx, if_neg ha] at h
      obtain ⟨d, hd, hlen, hname, hprev⟩ := ih (k + 1) i h
      refine ⟨d + 1, by omega, by simpa using hlen, by simpa using hname, ?_⟩
      intro j hj
      cases j with
      | zero => simpa using ha
      | succ j2 =>
        have := hprev j2 (by omega)
        simpa using this

theorem findMaterialIdx_append_some (X : String) (m : Material) :
    ∀ (l : List Material) (k i : Nat), findMaterialIdx X k l = some i →
      findMaterialIdx X k (l ++ [m]) = some i := by
  intro l
  induction l with
  | nil => intro k i h; simp [findMaterialIdx] at h
  | cons a t ih =>
    intro k i h
    by_cases ha : a.name = X
    · rw [findMaterialIdx, if_pos ha] at h
      simpa [findMaterialIdx, ha] using h
    · rw [findMaterialIdx, if_neg ha] at h
      simpa [findMaterialIdx, ha] using ih (k + 1) i h

/-- C5: get_material returns the index of the first material whose stored
name equals the query (Some of the least such index), None when no
material carries the name, and its result is unchanged by later
add_material calls, in particular by adding a second material of the same
name. -/
theorem claim_C5_get_material_first_match (s : Scene) (X : String) :
    (∀ i, Scene.get_material s X = some i →
        i < s.materials.length
        ∧ (s.materials.getD i noMaterial).name = X
        ∧ ∀ j, j < i → (s.materials.getD j noMaterial).name ≠ X)
    ∧ (Scene.get_material s X = none ↔ ∀ m ∈ s.materials, m.name ≠ X)
    ∧ (∀ m : Material, Scene.get_material s X ≠ none →
        Scene.get_material (Scene.add_material s m).1 X = Scene.get_material s X) := by
  refine ⟨?_, ?_, ?_⟩
  · intro i h
    obtain ⟨d, hd, hlen, hname, hprev⟩ := findMaterialIdx_some_spec X s.materials 0 i h
    have hdi : i = d := by omega
    subst hdi
    exact ⟨hlen, hname, hprev⟩
  · exact findMaterialIdx_none_iff X s.materials 0
  · intro m h
    rcases ho : Scene.get_material s X with _ | i
    · exact absurd ho h
    · exact findMaterialIdx_append_some X m s.materials 0 i ho

/-- C5 witness: on the concrete scene with two materials named X, the
lookup returns index 0, and adding a third material named X leaves the
result unchanged. -/
theorem claim_C5_witness :
    Scene.get_material
        (Scene.add_material twoXScene
          { name := "X", diffuse_texture := 8, normal_texture := 9, bind_group := 10 }).1 "X"
      = Scene.get_material twoXScene "X" :=
  (claim_C5_get_material_first_match twoXScene "X").2.2
    { name := "X", diffuse_texture := 8, normal_texture := 9, bind_group := 10 }
    (by decide)

/-- C8: a texture built by from_images or from_bytes gets the linear 8 bit
RGBA format exactly for the Normal texture type and the sRGB 8 bit RGBA
format for every other type. -/
theorem claim_C8_format_selection :
    (∀ (imgs : List ImageData) (ty : TextureType), imgs ≠ [] →
      (Texture.from_images imgs ty).map TextureRecord.format
        = some (if ty = TextureType.Normal then TextureFormat.Rgba8Unorm
                else TextureFormat.Rgba8UnormSrgb))
    ∧ (∀ (decode : List Nat → Option ImageData) (bytes : List Nat)
          (label : String) (ty : TextureType) (img : ImageData),
        decode bytes = some img →
        (Texture.from_bytes decode bytes label ty).map TextureRecord.format
          = some (if ty = TextureType.Normal then TextureFormat.Rgba8Unorm
                  else TextureFormat.Rgba8UnormSrgb)) := by
  constructor
  · intro imgs ty h
    match imgs with
    | img :: rest => cases ty <;> simp [Texture.from_images]
  · intro decode bytes label ty img h
    rcases ty <;> simp [Texture.from_bytes, h, Texture.from_images]

/-- C8 witness: the concrete image yields the linear format as a normal
map and the sRGB format as a diffuse map. -/
theorem claim_C8_witness :
    (Texture.from_images [demoImage] TextureType.Normal).map TextureRecord.format
      = some TextureFormat.Rgba8Unorm
    ∧ (Texture.from_images [demoImage] TextureType.Diffuse).map TextureRecord.format
      = some TextureFormat.Rgba8UnormSrgb :=
  ⟨claim_C8_format_selection.1 [demoImage] TextureType.Normal (by decide),
   claim_C8_format_selection.1 [demoImage] TextureType.Diffuse (by decide)⟩

/-- C6 counterexample: from_images with a single image and the Cubemap
type does not return an error: it succeeds, allocating six array layers
while uploading only one of them. -/
theorem claim_C6_counterexample :
    (Texture.from_images [demoImage] TextureType.Cubemap).isSome = true
    ∧ (Texture.from_images [demoImage] TextureType.Cubemap).map TextureRecord.layers
        = some 6
    ∧ (Texture.from_images [demoImage] TextureType.Cubemap).map
        (fun r => r.writes.length) = some 1 := by
  refine ⟨rfl, rfl, rfl⟩

/-- C6 amended: from_images never validates the image count. With the
Cubemap type and an empty list it panics on the first index access; with
any nonempty list it succeeds, allocating exactly six array layers and
uploading image i to array layer i for each supplied image, leaving the
remaining layers unwritten when fewer than six images are supplied. -/
theorem claim_C6_no_cubemap_count_check :
    Texture.from_images [] TextureType.Cubemap = none
    ∧ ∀ (img : ImageData) (rest : List ImageData),
        (Texture.from_images (img :: rest) TextureType.Cubemap).map TextureRecord.layers
          = some 6
        ∧ (Texture.from_images (img :: rest) TextureType.Cubemap).map
            (fun r => r.writes.map WriteTextureCall.origin_z)
          = some (List.range (img :: rest).length)
        ∧ (Texture.from_images (img :: rest) TextureType.Cubemap).map
            (fun r => r.writes.map WriteTextureCall.data)
          = some ((img :: rest).map ImageData.pixels) := by
  refine ⟨rfl, ?_⟩
  intro img rest
  have h1 : (List.map (fun p : Nat × ImageData =>
      ({ mip_level := 0, origin_x := 0, origin_y := 0, origin_z := p.1,
         data := p.2.pixels, bytes_per_row := 4 * img.width,
         rows_per_image := img.height, extent_width := img.width,
         extent_height := img.height, extent_layers := 1 } : WriteTextureCall))
      (img :: rest).enum).map WriteTextureCall.origin_z
      = List.range (img :: rest).length := by
    rw [List.map_map]
    exact enum_map_fst_comp (img :: rest)
  have h2 : (List.map (fun p : Nat × ImageData =>
      ({ mip_level := 0, origin_x := 0, origin_y := 0, origin_z := p.1,
         data := p.2.pixels, bytes_per_row := 4 * img.width,
         rows_per_image := img.height, extent_width := img.width,
         extent_height := img.height, extent_layers := 1 } : WriteTextureCall))
      (img :: rest).enum).map WriteTextureCall.data
      = (img :: rest).map ImageData.pixels := by
    rw [List.map_map]
    exact enum_map_snd_comp ImageData.pixels (img :: rest)
  refine ⟨rfl, ?_, ?_⟩
  · simpa [Texture.from_images] using h1
  · simpa [Texture.from_images] using h2

theorem sum_map_eq_zero {α : Type} (f : α → Nat) :
    ∀ l : List α, (∀ a ∈ l, f a = 0) → (l.map f).sum = 0 := by
  intro l
  induction l with
  | nil => intro _; simp
  | cons a t ih =>
    intro h
    have ha := h a (by simp)
    have ht := ih fun b hb => h b (by simp [hb])
    simp [ha, ht]

theorem map_congr_mem {α β : Type} (f g : α → β) :
    ∀ l : List α, (∀ a ∈ l, f a = g a) → l.map f = l.map g := by
  intro l
  induction l with
  | nil => intro _; rfl
  | cons a t ih =>
    intro h
    have ha := h a (by simp)
    have ht := ih fun b hb => h b (by simp [hb])
    simp [ha, ht]

theorem drawMeshes_eq_flatMap (materials : List Material) :
    ∀ (meshes : List Mesh), (∀ mesh ∈ meshes, mesh.material < materials.length) →
      drawMeshes materials meshes
        = some (meshes.flatMap fun mesh =>
            drawMesh mesh (materials.getD mesh.material noMaterial)) := by
  intro meshes
  induction meshes with
  | nil => intro _; simp [drawMeshes]
  | cons a t ih =>
    intro h
    have ha : a.material < materials.length := h a (by simp)
    have hidx := listIdx_eq_some_getD noMaterial materials a.material ha
    have ht := ih fun b hb => h b (by simp [hb])
    simp [drawMeshes, hidx, ht, List.flatMap_cons]

theorem drawSceneObjects_eq_flatMap (models : List Model) (materials : List Material) :
    ∀ (objects : List ModelInstance),
      (∀ obj ∈ objects, obj.model_index < models.length ∧
        ∀ mesh ∈ (models.getD obj.model_index noModel).meshes,
          mesh.material < materials.length) →
      drawSceneObjects models materials objects
        = some (objects.flatMap fun obj =>
            GpuEffect.writeModelBuffer obj.transform ::
              ((models.getD obj.model_index noModel).meshes.flatMap fun mesh =>
                drawMesh mesh (materials.getD mesh.material noMaterial))) := by
  intro objects
  induction objects with
  | nil => intro _; simp [drawSceneObjects]
  | cons a t ih =>
    intro h
    obtain ⟨ha1, ha2⟩ := h a (by simp)
    have hidx := listIdx_eq_some_getD noModel models a.model_index ha1
    have hm := drawMeshes_eq_flatMap materials
      (models.getD a.model_index noModel).meshes ha2
    have ht := ih fun b hb => h b (by simp [hb])
    simp only [List.getD_eq_getElem?_getD] at hm
    simp [drawSceneObjects, hidx, hm, ht, List.flatMap_cons]

theorem countP_drawMesh_draw (mesh : Mesh) (material : Material) :
    (drawMesh mesh material).countP isDrawCall = 1 := by
  simp [drawMesh, drawMeshInstanced, List.countP_cons, isDrawCall]

theorem countP_drawMesh_upload (mesh : Mesh) (material : Material) :
    (drawMesh mesh material).countP isTransformUpload = 0 := by
  simp [drawMesh, drawMeshInstanced, List.countP_cons, isTransformUpload]

theorem countP_objectBlock_draw (scene : Scene) (obj : ModelInstance) :
    (GpuEffect.writeModelBuffer obj.transform ::
      ((scene.models.getD obj.model_index noModel).meshes.flatMap fun mesh =>
        drawMesh mesh (scene.materials.getD mesh.material noMaterial))).countP isDrawCall
    = (scene.models.getD obj.model_index noModel).meshes.length := by
  rw [List.countP_cons, countP_flatMap]
  have h0 : isDrawCall (GpuEffect.writeModelBuffer obj.transform) = false := rfl
  rw [h0]
  simp only [if_neg Bool.false_ne_true, Nat.add_zero]
  exact sum_map_eq_length _ _ fun a _ => countP_drawMesh_draw a _

theorem countP_objectBlock_upload (scene : Scene) (obj : ModelInstance) :
    (GpuEffect.writeModelBuffer obj.transform ::
      ((scene.models.getD obj.model_index noModel).meshes.flatMap fun mesh =>
        drawMesh mesh (scene.materials.getD mesh.material noMaterial))).countP isTransformUpload
    = 1 := by
  rw [List.countP_cons, countP_flatMap]
  have h0 : isTransformUpload (GpuEffect.writeModelBuffer obj.transform) = true := rfl
  rw [h0]
  have hz := sum_map_eq_zero
    (fun mesh => (drawMesh mesh (scene.materials.getD mesh.material noMaterial)).countP
      isTransformUpload)
    (scene.models.getD obj.model_index noModel).meshes
    fun a _ => countP_drawMesh_upload a _
  simpa using hz

/-- C1: on an in-bounds scene, draw_scene issues, for each object in
vector order, exactly one upload of the transform of that object followed
by, for each mesh of the model of that object in vector order, the bind of
the bind group of the material of that mesh and exactly one indexed draw
over the full index range of the mesh (the sceneTrace closed form); the
trace contains one draw call per mesh per instance and one transform
upload per instance, so a scene of single-mesh objects yields exactly as
many draw calls as objects. -/
theorem claim_C1_draw_order_and_counts (scene : Scene) (h : SceneInBounds scene) :
    Renderer.draw_scene scene = some (sceneTrace scene)
    ∧ (sceneTrace scene).countP isDrawCall = meshCount scene
    ∧ (sceneTrace scene).countP isTransformUpload = scene.objects.length
    ∧ ((∀ obj ∈ scene.objects,
          (scene.models.getD obj.model_index noModel).meshes.length = 1) →
        (sceneTrace scene).countP isDrawCall = scene.objects.length) := by
  have hdraw : (sceneTrace scene).countP isDrawCall = meshCount scene := by
    rw [sceneTrace, countP_flatMap, meshCount]
    rw [map_congr_mem _ _ scene.objects fun obj _ => countP_objectBlock_draw scene obj]
  refine ⟨?_, hdraw, ?_, ?_⟩
  · rw [Renderer.draw_scene, sceneTrace]
    exact drawSceneObjects_eq_flatMap scene.models scene.materials scene.objects h
  · rw [sceneTrace, countP_flatMap]
    rw [map_congr_mem _ _ scene.objects fun obj _ => countP_objectBlock_upload scene obj]
    exact sum_map_eq_length _ _ fun _ _ => rfl
  · intro hsingle
    rw [hdraw, meshCount]
    exact sum_map_eq_length _ _ fun obj hobj => hsingle obj hobj

/-- C1 witness: the concrete scene of two single-mesh objects draws in the
closed-form order and issues exactly two draw calls and two transform
uploads. -/
theorem claim_C1_witness :
    Renderer.draw_scene demoScene = some (sceneTrace demoScene)
    ∧ (sceneTrace demoScene).countP isTransformUpload = demoScene.objects.length
    ∧ (sceneTrace demoScene).countP isDrawCall = demoScene.objects.length :=
  ⟨(claim_C1_draw_order_and_counts demoScene (by decide)).1,
   (claim_C1_draw_order_and_counts demoScene (by decide)).2.2.1,
   (claim_C1_draw_order_and_counts demoScene (by decide)).2.2.2 (by decide)⟩

/-- C7 counterexample: a parsed asset whose single mesh has no resolved
material reference loads successfully; the mesh is silently given material
index 0 instead of the load failing. -/
theorem claim_C7_counterexample :
    load_model (Except.ok ([demoTobjModel], Except.ok [])) demoLoadTex "dragon.obj"
      = Except.ok { meshes := [{ name := "dragon.obj", vertex_buffer := 0,
                                 index_buffer := 1, num_elements := 3,
                                 material := 0 }],
                    materials := [] } := by
  rfl

/-- C7 amended: load_model propagates obj-parse failures, mtl failures and
texture-load failures, but an unresolved material reference is not an
error: whenever the load succeeds, each mesh whose material_id is missing
is assigned material index 0 (material_id.unwrap_or(0)); and the load
succeeds whenever the material loop succeeds. load_model itself never
touches a scene, so no scene mutation occurs on any failure. -/
theorem claim_C7_unresolved_material_defaults
    (models : List TobjModel) (mats : List ObjMaterial)
    (loadTex : String → TextureType → Except String Nat)
    (filename : String) (e : String) :
    load_model (Except.error e) loadTex filename = Except.error e
    ∧ load_model (Except.ok (models, Except.error e)) loadTex filename = Except.error e
    ∧ (∀ err, loadMaterials loadTex mats = Except.error err →
        load_model (Except.ok (models, Except.ok mats)) loadTex filename
          = Except.error err)
    ∧ ((∃ ms, loadMaterials loadTex mats = Except.ok ms) →
        ∃ lm, load_model (Except.ok (models, Except.ok mats)) loadTex filename
          = Except.ok lm)
    ∧ (∀ lm, load_model (Except.ok (models, Except.ok mats)) loadTex filename
          = Except.ok lm →
        lm.meshes.map Mesh.material
          = models.map fun tm => tm.mesh.material_id.getD 0) := by
  refine ⟨rfl, rfl, ?_, ?_, ?_⟩
  · intro err herr
    simp [load_model, herr]
  · rintro ⟨ms, hms⟩
    refine ⟨{ meshes := models.enum.map fun p => meshOfTobj filename p.1 p.2,
              materials := ms }, ?_⟩
    simp [load_model, hms]
  · intro lm hlm
    cases hms : loadMaterials loadTex mats with
    | error err => simp [load_model, Except.bind, hms] at hlm
    | ok ms =>
      simp [load_model, Except.bind, hms] at hlm
      subst hlm
      show (List.map (fun p => meshOfTobj filename p.1 p.2) models.enum).map Mesh.material
          = models.map fun tm => tm.mesh.material_id.getD 0
      rw [List.map_map]
      exact enum_map_snd_comp (fun tm => tm.mesh.material_id.getD 0) models

/-- C7 witness: on the concrete asset with one mesh lacking a material id,
the amended claim instantiates to material index 0. -/
theorem claim_C7_witness :
    demoLoadedModel.meshes.map Mesh.material
      = [demoTobjModel].map fun tm => tm.mesh.material_id.getD 0 :=
  (claim_C7_unresolved_material_defaults [demoTobjModel] [] demoLoadTex
    "dragon.obj" "e").2.2.2.2 demoLoadedModel rfl
